import Mathlib

/-!
Verification of the report-generation and live-update pipeline of
`src/viewer.js` (webpack-bundle-analyzer).

The JavaScript source is shallowly embedded: each source function becomes a
Lean definition over an explicit model of the JavaScript values it inspects,
side effects (log calls, file writes, push-channel sends) become explicit
effect lists or records returned by the functions, and the external Analyzer
collaborator (`analyzer.getViewerData`) is abstracted as a value of
`AnalyzerResult` describing how the call behaved (raised, or returned a value).
-/

namespace Viewer

/-- A chart-data entry as produced by the Analyzer (a bundle-info record).
Its internal shape is opaque to `viewer.js`; we keep just enough structure
for concrete examples. -/
structure ChartEntry where
  label : String
  statSize : Int
deriving DecidableEq, Repr

/-- A JavaScript value, as far as `viewer.js` inspects it: the code only ever
tests truthiness (`if (chartData)`, `if (!newChartData)`) and
`Array.isArray`.  Arrays carry chart entries since that is the only array the
pipeline handles; `objOther` stands for any other (truthy) object. -/
inductive JSValue where
  | null
  | undef
  | bool (b : Bool)
  | num (n : Int)
  | str (s : String)
  | arr (elems : List ChartEntry)
  | objOther
deriving DecidableEq, Repr

/-- JavaScript truthiness of a `JSValue`: `null`, `undefined`, `false`, `0`
and `""` are falsy; everything else (including the empty array) is truthy. -/
def truthy : JSValue → Bool
  | .null => false
  | .undef => false
  | .bool b => b
  | .num n => n != 0
  | .str s => s ≠ ""
  | .arr _ => true
  | .objOther => true

/-- `Array.isArray` on the embedded values. -/
def isArray : JSValue → Bool
  | .arr _ => true
  | _ => false

/-- One logger call, tagged with the level used in the source
(`logger.error`, `logger.debug`, `logger.info`). -/
inductive LogEntry where
  | error (msg : String)
  | debug (msg : String)
  | info (msg : String)
deriving DecidableEq, Repr

/-- Level predicate: entry was produced by `logger.error`. -/
def LogEntry.isError : LogEntry → Bool
  | .error _ => true
  | _ => false

/-- Level predicate: entry was produced by `logger.debug`. -/
def LogEntry.isDebug : LogEntry → Bool
  | .debug _ => true
  | _ => false

/-- Outcome of the external `analyzer.getViewerData(...)` call: either it
raised an error (with its string rendering and its `stack`), or it returned
some JavaScript value. -/
inductive AnalyzerResult where
  | raises (errString : String) (stack : String)
  | returns (v : JSValue)
deriving DecidableEq, Repr

/-- Message logged at error level when the Analyzer raises `err`:
`logger.error("Couldn\x27t analyze webpack bundle:\n" + err)`. -/
def analyzeFailedMsg (errString : String) : String :=
  "Couldn\x27t analyze webpack bundle:\n" ++ errString

/-- Message logged when the Analyzer returned a truthy non-array value. -/
def noBundlesMsg : String :=
  "Couldn\x27t find any javascript bundles in provided stats file"

/-- Embedding of `getChartData(analyzerOpts, ...args)` (viewer.js lines
195-218).  The `try { chartData = analyzer.getViewerData(...) } catch` block
is modelled by matching on the `AnalyzerResult`; the function returns the
resulting `chartData` value together with the list of logger calls it made,
in order.  Note the post-check in the source is
`if (chartData && !Array.isArray(chartData))`: it fires only for TRUTHY
non-array values. -/
def getChartData (res : AnalyzerResult) : JSValue × List LogEntry :=
  match res with
  | .raises errString stack =>
      -- catch branch: logger.error(...), logger.debug(err.stack), chartData = null;
      -- the subsequent truthiness check does not fire on null.
      (JSValue.null, [LogEntry.error (analyzeFailedMsg errString), LogEntry.debug stack])
  | .returns v =>
      if truthy v && !isArray v then
        (JSValue.null, [LogEntry.error noBundlesMsg])
      else
        (v, [])

end Viewer

namespace Viewer

/-- WebSocket ready states, as numbered by the `ws` library:
CONNECTING = 0, OPEN = 1, CLOSING = 2, CLOSED = 3. -/
def wsOPEN : Nat := 1

/-- A push-channel (WebSocket) connection: `viewer.js` only ever reads its
`readyState`. -/
structure Client where
  readyState : Nat
deriving DecidableEq, Repr

/-- The JSON object sent on the push channel:
`JSON.stringify(\x7bevent: "chartDataUpdated", data: newChartData\x7d)`,
modelled structurally. -/
structure Message where
  event : String
  data : JSValue
deriving DecidableEq, Repr

/-- The mutable server session state captured by the `startServer` closure:
the `chartData` variable and the (`wss.clients`) connection set. -/
structure ServerState where
  chartData : JSValue
  clients : List Client
deriving DecidableEq, Repr

/-- Everything one call to `updateChartData` does: the state it leaves
behind, the send performed (or skipped) per connection of `wss.clients` in
order — `some m` when `client.send` ran, `none` when the `readyState` guard
skipped the client — and the logger calls of the nested `getChartData`. -/
structure UpdateResult where
  state : ServerState
  sends : List (Option Message)
  logs : List LogEntry
deriving DecidableEq, Repr

/-- Embedding of the closure `updateChartData(bundleStats)` (viewer.js lines
120-135).  `res` abstracts the nested `getChartData(analyzerOpts,
bundleStats, bundleDir)` call.  The source assigns `chartData =
newChartData` BEFORE the broadcast loop; here the state field and the sends
are produced together in one atomic result, every sent message carrying the
already-stored new value.  The guard in the source is `if (!newChartData)
return;`, i.e. a truthiness test. -/
def updateChartData (res : AnalyzerResult) (st : ServerState) : UpdateResult :=
  let newChartData := (getChartData res).1
  if truthy newChartData then
    { state := { chartData := newChartData, clients := st.clients },
      sends := st.clients.map (fun client =>
        if client.readyState = wsOPEN then
          some { event := "chartDataUpdated", data := newChartData }
        else
          none),
      logs := (getChartData res).2 }
  else
    { state := st, sends := [], logs := (getChartData res).2 }

/-- A (key, entrypoint-record) pair of the `bundleStats.entrypoints` mapping;
`name` is `none` when the record lacks a `name` field (JavaScript
`undefined`). -/
structure Entrypoint where
  name : Option String
deriving DecidableEq, Repr

/-- The part of `bundleStats` that `viewer.js` reads directly: the optional
`entrypoints` field, an object kept as its ordered (key, value) entries.
`none` models an absent (undefined) field. -/
structure BundleStatsRec where
  entrypoints : Option (List (String × Entrypoint))
deriving DecidableEq, Repr

/-- Embedding of `getEntrypoints(bundleStats)` (viewer.js lines 220-225).
The outer `Option` models `null`/`undefined` bundle stats (the source tests
`bundleStats === null || bundleStats === undefined` explicitly); a missing
`entrypoints` field fails the `!bundleStats.entrypoints` truthiness test.
Otherwise `Object.values(...).map(entrypoint => entrypoint.name)`: each
value projected to its `name` field, `none` standing for `undefined`. -/
def getEntrypoints : Option BundleStatsRec → List (Option String)
  | Option.none => []
  | Option.some bs =>
    match bs.entrypoints with
    | Option.none => []
    | Option.some eps => eps.map (fun p => p.2.name)

/-- Embedding of the prefix of `startServer(bundleStats, opts)` (viewer.js
lines 38-57) that the null-chart-data claim is about: it runs the pipeline
once and computes the entrypoints, and if the chart data is falsy it returns
before `http.createServer` or `server.listen` run.  `some st` means a server
was created and its listener bound, with initial session state `st`; `none`
means the early return was taken: no server, no listener, no error. -/
def startServer (res : AnalyzerResult) (bundleStats : Option BundleStatsRec) :
    Option ServerState × List LogEntry :=
  let chartData := (getChartData res).1
  let _entrypoints := getEntrypoints bundleStats
  if truthy chartData then
    (some { chartData := chartData, clients := [] }, (getChartData res).2)
  else
    (none, (getChartData res).2)

/-- A file-system path as Node's `path` module treats it: an absoluteness
flag and the list of segments.  (Normalization of `..`/`.` is irrelevant to
the claims and left out; all inputs are taken pre-normalized.) -/
structure JPath where
  absolute : Bool
  comps : List String
deriving DecidableEq, Repr

/-- Node's `path.join(p, q)`: the segments are concatenated; a leading `/`
of `q` does not restart the path. -/
def pathJoin (p q : JPath) : JPath :=
  { absolute := p.absolute, comps := p.comps ++ q.comps }

/-- Node's `path.resolve(base, q)`: processed right to left — an absolute
`q` wins outright; otherwise `q` is appended to `base`, and if `base` is
itself relative the process working directory is prepended. -/
def pathResolve (cwd base q : JPath) : JPath :=
  if q.absolute then q
  else if base.absolute then { absolute := true, comps := base.comps ++ q.comps }
  else { absolute := cwd.absolute, comps := cwd.comps ++ base.comps ++ q.comps }

/-- Node's `path.dirname`: drop the last segment. -/
def dirname (p : JPath) : JPath :=
  { absolute := p.absolute, comps := p.comps.dropLast }

/-- Render a `JPath` the way Node prints it. -/
def pathToString (p : JPath) : String :=
  (if p.absolute then "/" else "") ++ String.intercalate "/" p.comps

/-- The output-path computation of `generateReport` (viewer.js line 164):
`path.resolve(bundleDir || process.cwd(), reportFilename)`, with
`bundleDir = null` (absent) falling back to the working directory. -/
def reportFilepath (cwd : JPath) (bundleDir : Option JPath)
    (reportFilename : JPath) : JPath :=
  pathResolve cwd (bundleDir.getD cwd) reportFilename

/-- A JSON serialization of the embedded values, standing for
`JSON.stringify` (only ever applied to the array the pipeline validated). -/
def jsonStringify : JSValue → String
  | .null => "null"
  | .undef => "undefined"
  | .bool b => if b then "true" else "false"
  | .num n => toString n
  | .str s => "\"" ++ s ++ "\""
  | .arr es => "[" ++ String.intercalate ","
      (es.map (fun e =>
        "\x7b\"label\":\"" ++ e.label ++ "\",\"statSize\":" ++ toString e.statSize ++ "\x7d"))
      ++ "]"
  | .objOther => "\x7b\x7d"

/-- The file-system side effects of one `generateJSONReport` call, in order:
the directory passed to `fs.promises.mkdir(..., recursive)`, the path and
content passed to `fs.promises.writeFile`, and the path interpolated into
the success log line. -/
structure FileEffects where
  mkdirDir : JPath
  writePath : JPath
  content : String
  loggedPath : JPath
deriving DecidableEq, Repr

/-- Embedding of `generateJSONReport(bundleStats, opts)` (viewer.js lines
176-193).  `res` abstracts the `getChartData` call (to which `bundleDir` is
forwarded; it plays no other role in the function).  A falsy chart-data
result aborts with no file effects; otherwise the directories are created
from `path.dirname(reportFilename)` — `bundleDir` ignored — the serialized
chart data is written to `reportFilename`, and the literal `reportFilename`
is logged. -/
def generateJSONReport (res : AnalyzerResult) (bundleDir : Option JPath)
    (reportFilename : JPath) : Option FileEffects × List LogEntry :=
  let chartData := (getChartData res).1
  let _ := bundleDir
  if truthy chartData then
    (some { mkdirDir := dirname reportFilename,
            writePath := reportFilename,
            content := jsonStringify chartData,
            loggedPath := reportFilename },
     (getChartData res).2 ++
       [LogEntry.info ("Webpack Bundle Analyzer saved JSON report to "
          ++ pathToString reportFilename)])
  else
    (none, (getChartData res).2)

/-- A flat file-system snapshot, for stating that writes overwrite. -/
def FileSys : Type := JPath → Option String

/-- Effect of `fs.writeFileSync` / `fs.promises.writeFile` on a snapshot:
the content at the path is replaced outright. -/
def writeFile (fs : FileSys) (p : JPath) (c : String) : FileSys :=
  fun q => if q = p then some c else fs q

/-- Embedding of `resolveDefaultSizes(defaultSizes, compressionAlgorithm)`
(viewer.js lines 24-27): `['gzip', 'brotli'].includes(defaultSizes)` selects
the compression algorithm; anything else — including `undefined`, modelled
as `none` — passes through.  Both arguments are string-or-undefined. -/
def resolveDefaultSizes (defaultSizes compressionAlgorithm : Option String) :
    Option String :=
  if defaultSizes ∈ [some "gzip", some "brotli"] then compressionAlgorithm
  else defaultSizes

/-- C1, counterexample: the Analyzer returning the falsy non-null value `0`
refutes the claim — `getChartData` then returns `0` (not `null`) and emits
no "no bundles found" log at all. -/
theorem C1_counterexample :
    ¬ (getChartData (AnalyzerResult.returns (JSValue.num 0)) =
        (JSValue.null, [LogEntry.error noBundlesMsg])) := by
  decide

/-- C1, amended: if the Analyzer returns successfully with a TRUTHY value
that is not a sequence, then `getChartData` returns null and emits exactly
the "no bundles found" log message; a falsy return value (0, "", false,
undefined) is instead passed through unchanged with no log message (it is
still treated as a failure by every caller, which tests truthiness). -/
theorem C1_amended_no_bundles :
    (∀ v : JSValue, truthy v = true → isArray v = false →
      getChartData (AnalyzerResult.returns v) =
        (JSValue.null, [LogEntry.error noBundlesMsg])) ∧
    (∀ v : JSValue, truthy v = false →
      getChartData (AnalyzerResult.returns v) = (v, [])) := by
  constructor
  · intro v ht ha
    simp [getChartData, ht, ha]
  · intro v ht
    simp [getChartData, ht]

/-- C1, witness: the amended theorem applied at the concrete truthy
non-array value `objOther` (an opaque plain object). -/
theorem C1_amended_witness :
    getChartData (AnalyzerResult.returns JSValue.objOther) =
      (JSValue.null, [LogEntry.error noBundlesMsg]) :=
  C1_amended_no_bundles.1 JSValue.objOther (by decide) (by decide)

/-- C4: when the Analyzer raises, `getChartData` catches the error and
returns null, logging exactly one error-level entry (the rendered error
message) and exactly one debug-level entry (the stack), in that order; being
a total function of the embedded code, nothing propagates past it. -/
theorem C4_analyzer_raises (errString stack : String) :
    getChartData (AnalyzerResult.raises errString stack) =
      (JSValue.null,
        [LogEntry.error (analyzeFailedMsg errString), LogEntry.debug stack]) ∧
    ((getChartData (AnalyzerResult.raises errString stack)).2.filter
        LogEntry.isError).length = 1 ∧
    ((getChartData (AnalyzerResult.raises errString stack)).2.filter
        LogEntry.isDebug).length = 1 := by
  refine ⟨rfl, ?_, ?_⟩ <;> simp [getChartData, LogEntry.isError, LogEntry.isDebug]

/-- C2: when the pipeline re-run yields a valid (non-null) chart-data
sequence `xs`, `updateChartData` replaces the stored chart data with that
value (the connection set untouched), and per connection of the set, in
order: a connection in the open state is sent exactly one message, the JSON
object with event "chartDataUpdated" and the new chart data, while a
connection in any other state is skipped (`none`) without error or retry.
The replacement and the sends are one atomic result, every message carrying
the already-replaced value. -/
theorem C2_update_broadcast (res : AnalyzerResult) (st : ServerState)
    (xs : List ChartEntry) (h : (getChartData res).1 = JSValue.arr xs) :
    (updateChartData res st).state.chartData = JSValue.arr xs ∧
    (updateChartData res st).state.clients = st.clients ∧
    (updateChartData res st).sends.length = st.clients.length ∧
    ∀ i (hi : i < st.clients.length)
      (hi' : i < (updateChartData res st).sends.length),
      (updateChartData res st).sends.get ⟨i, hi'⟩ =
        if (st.clients.get ⟨i, hi⟩).readyState = wsOPEN then
          some { event := "chartDataUpdated", data := JSValue.arr xs }
        else
          none := by
  unfold updateChartData
  rw [h]
  simp only [truthy, if_true]
  refine ⟨by trivial, by trivial, by simp, ?_⟩
  intro i hi hi'
  simp [List.get_eq_getElem, List.getElem_map]

/-- C2, witness: two connections, one open (`readyState = 1`) and one closed
(`readyState = 3`); the open one is sent exactly the chartDataUpdated
message, the closed one nothing. -/
theorem C2_update_broadcast_witness :
    (updateChartData
        (AnalyzerResult.returns (JSValue.arr [{ label := "main.js", statSize := 100 }]))
        { chartData := JSValue.null, clients := [{ readyState := 1 }, { readyState := 3 }] }
      ).state.chartData = JSValue.arr [{ label := "main.js", statSize := 100 }] :=
  (C2_update_broadcast
    (AnalyzerResult.returns (JSValue.arr [{ label := "main.js", statSize := 100 }]))
    { chartData := JSValue.null, clients := [{ readyState := 1 }, { readyState := 3 }] }
    [{ label := "main.js", statSize := 100 }] rfl).1

/-- C3: when the pipeline re-run yields null, `updateChartData` is a no-op:
the previous state (chart data and connection set) is returned unchanged and
zero messages are sent; being a total function, no error reaches the
caller. -/
theorem C3_update_noop (res : AnalyzerResult) (st : ServerState)
    (h : (getChartData res).1 = JSValue.null) :
    (updateChartData res st).state = st ∧ (updateChartData res st).sends = [] := by
  unfold updateChartData
  rw [h]
  simp [truthy]

/-- C3, witness: an Analyzer failure (which makes the pipeline yield null)
leaves a concrete state untouched and sends nothing. -/
theorem C3_update_noop_witness :
    (updateChartData (AnalyzerResult.raises "err" "stack")
        { chartData := JSValue.arr [], clients := [{ readyState := 1 }] }).state =
      { chartData := JSValue.arr [], clients := [{ readyState := 1 }] } ∧
    (updateChartData (AnalyzerResult.raises "err" "stack")
        { chartData := JSValue.arr [], clients := [{ readyState := 1 }] }).sends = [] :=
  C3_update_noop (AnalyzerResult.raises "err" "stack")
    { chartData := JSValue.arr [], clients := [{ readyState := 1 }] } rfl

/-- C5: when the initial pipeline run yields null chart data, `startServer`
completes normally with `none`: no server created, no listener bound, and —
the embedding being a total function — no error raised. -/
theorem C5_start_noop (res : AnalyzerResult) (bundleStats : Option BundleStatsRec)
    (h : (getChartData res).1 = JSValue.null) :
    (startServer res bundleStats).1 = none := by
  unfold startServer
  rw [h]
  simp [truthy]

/-- C5, witness: a raising Analyzer yields null chart data, and `startServer`
on concrete bundle stats returns no server handle. -/
theorem C5_start_noop_witness :
    (startServer (AnalyzerResult.raises "err" "stack")
        (some { entrypoints := some [("main", { name := some "main" })] })).1 = none :=
  C5_start_noop (AnalyzerResult.raises "err" "stack")
    (some { entrypoints := some [("main", { name := some "main" })] }) rfl

/-- C6, counterexample: the source uses `path.resolve`, not `path.join` —
with `bundleDir = /a` and the absolute `reportFilename = /b/report.html`,
the output path is `/b/report.html`, NOT appended under `bundleDir` as
`join` would give (`/a/b/report.html`). -/
theorem C6_counterexample :
    reportFilepath { absolute := true, comps := ["home"] }
        (some { absolute := true, comps := ["a"] })
        { absolute := true, comps := ["b", "report.html"] } ≠
      pathJoin { absolute := true, comps := ["a"] }
        { absolute := true, comps := ["b", "report.html"] } := by
  decide

/-- C6, amended: the HTML report's output path is
`path.resolve(bundleDir or cwd, reportFilename)`: a RELATIVE
`reportFilename` is appended under the (absolute) base directory exactly as
`join` would do, but an ABSOLUTE `reportFilename` is used as-is, ignoring
`bundleDir`. -/
theorem C6_amended_resolve (cwd : JPath) (bundleDir : Option JPath) :
    (∀ fn : JPath, fn.absolute = false → (bundleDir.getD cwd).absolute = true →
      reportFilepath cwd bundleDir fn = pathJoin (bundleDir.getD cwd) fn) ∧
    (∀ fn : JPath, fn.absolute = true → reportFilepath cwd bundleDir fn = fn) := by
  constructor
  · intro fn habs hbase
    simp [reportFilepath, pathResolve, pathJoin, habs, hbase]
  · intro fn habs
    simp [reportFilepath, pathResolve, habs]

/-- C6, witness: relative `report.html` under absolute `bundleDir = /a`
lands at `/a/report.html`, the join of the two. -/
theorem C6_amended_witness :
    reportFilepath { absolute := true, comps := ["home"] }
        (some { absolute := true, comps := ["a"] })
        { absolute := false, comps := ["report.html"] } =
      pathJoin { absolute := true, comps := ["a"] }
        { absolute := false, comps := ["report.html"] } :=
  (C6_amended_resolve { absolute := true, comps := ["home"] }
      (some { absolute := true, comps := ["a"] })).1
    { absolute := false, comps := ["report.html"] } (by decide) (by decide)

/-- C7: on a valid pipeline result, `generateJSONReport` creates the missing
directories at `dirname(reportFilename)` — computed from `reportFilename`
itself, with the whole call independent of `bundleDir` — writes the
serialized chart data at `reportFilename`, overwriting whatever any prior
file-system snapshot held there, and logs the literal `reportFilename`. -/
theorem C7_json_report (res : AnalyzerResult) (bundleDir : Option JPath)
    (fn : JPath) (xs : List ChartEntry)
    (h : (getChartData res).1 = JSValue.arr xs) :
    (generateJSONReport res bundleDir fn).1 =
      some { mkdirDir := dirname fn, writePath := fn,
             content := jsonStringify (JSValue.arr xs), loggedPath := fn } ∧
    (∀ bundleDir' : Option JPath,
      generateJSONReport res bundleDir' fn = generateJSONReport res bundleDir fn) ∧
    (∀ fs : FileSys,
      writeFile fs fn (jsonStringify (JSValue.arr xs)) fn =
        some (jsonStringify (JSValue.arr xs))) := by
  refine ⟨?_, ?_, ?_⟩
  · simp [generateJSONReport, h, truthy]
  · intro bundleDir'
    simp [generateJSONReport]
  · intro fs
    simp [writeFile]

/-- C7, witness: concrete one-entry chart data written to the relative path
`out/report.json`, with `bundleDir = /a` playing no role. -/
theorem C7_json_report_witness :
    (generateJSONReport
        (AnalyzerResult.returns (JSValue.arr [{ label := "main.js", statSize := 100 }]))
        (some { absolute := true, comps := ["a"] })
        { absolute := false, comps := ["out", "report.json"] }).1 =
      some { mkdirDir := { absolute := false, comps := ["out"] },
             writePath := { absolute := false, comps := ["out", "report.json"] },
             content := jsonStringify (JSValue.arr [{ label := "main.js", statSize := 100 }]),
             loggedPath := { absolute := false, comps := ["out", "report.json"] } } :=
  (C7_json_report
    (AnalyzerResult.returns (JSValue.arr [{ label := "main.js", statSize := 100 }]))
    (some { absolute := true, comps := ["a"] })
    { absolute := false, comps := ["out", "report.json"] }
    [{ label := "main.js", statSize := 100 }] rfl).1

/-- C8: `getEntrypoints` returns `[]` on `null`/`undefined` bundle stats
(both modelled by the outer `none`, which the source tests for explicitly)
and on stats lacking an `entrypoints` field; otherwise it maps each value of
the mapping, in order, to its `name` field — in particular the two-entry
example yields `["x", "y"]`.  It is a total Lean function: pure, no side
effects, no failure modes. -/
theorem C8_get_entrypoints :
    getEntrypoints none = [] ∧
    getEntrypoints (some { entrypoints := none }) = [] ∧
    (∀ eps : List (String × Entrypoint),
      getEntrypoints (some { entrypoints := some eps }) =
        eps.map (fun p => p.2.name)) ∧
    getEntrypoints
        (some ⟨some [("a", ⟨some "x"⟩), ("b", ⟨some "y"⟩)]⟩) =
      [some "x", some "y"] := by
  exact ⟨rfl, rfl, fun eps => rfl, rfl⟩

/-- C9: default-size resolution returns the compression algorithm exactly
when `defaultSizes` is "gzip" or "brotli" and passes every other value
(including `undefined = none`) through unchanged, matching the three
concrete examples of the claim. -/
theorem C9_resolve_default_sizes :
    (∀ c, resolveDefaultSizes (some "gzip") c = c) ∧
    (∀ c, resolveDefaultSizes (some "brotli") c = c) ∧
    (∀ d c, d ≠ some "gzip" → d ≠ some "brotli" → resolveDefaultSizes d c = d) ∧
    resolveDefaultSizes (some "gzip") (some "brotli") = some "brotli" ∧
    resolveDefaultSizes (some "parsed") (some "brotli") = some "parsed" ∧
    resolveDefaultSizes (some "brotli") none = none := by
  refine ⟨?_, ?_, ?_, by decide, by decide, by decide⟩
  · intro c
    simp [resolveDefaultSizes]
  · intro c
    simp [resolveDefaultSizes]
  · intro d c h1 h2
    simp [resolveDefaultSizes, h1, h2]

/-- C9, witness: the pass-through branch applied at the concrete pair
("parsed", "brotli"). -/
theorem C9_resolve_witness :
    resolveDefaultSizes (some "parsed") (some "brotli") = some "parsed" :=
  C9_resolve_default_sizes.2.2.1 (some "parsed") (some "brotli")
    (by decide) (by decide)

/-- C10: for a present non-empty entrypoints mapping, the result of
`getEntrypoints` has one element per mapping entry, and an entry whose
record lacks a `name` field contributes `none` (JavaScript `undefined`, not
a string) at its position. -/
theorem C10_entrypoints_shape (eps : List (String × Entrypoint)) (_h : eps ≠ []) :
    (getEntrypoints (some { entrypoints := some eps })).length = eps.length ∧
    ∀ i (hi : i < eps.length)
      (hi' : i < (getEntrypoints (some { entrypoints := some eps })).length),
      (eps.get ⟨i, hi⟩).2.name = none →
      (getEntrypoints (some { entrypoints := some eps })).get ⟨i, hi'⟩ = none := by
  constructor
  · simp [getEntrypoints]
  · intro i hi hi' hname
    simpa [getEntrypoints, List.get_eq_getElem, List.getElem_map] using hname

/-- C10, witness: a two-entry mapping whose first record lacks a name
yields a two-element result. -/
theorem C10_entrypoints_shape_witness :
    (getEntrypoints
        (some ⟨some [("a", ⟨none⟩), ("b", ⟨some "y"⟩)]⟩)).length = 2 :=
  (C10_entrypoints_shape
    [("a", { name := none }), ("b", { name := some "y" })] (by decide)).1

end Viewer
